import Mathlib

/-!
Shallow embedding of src/a3sdt.py, the Arma 3 server lifecycle manager
(start / stop / restart built around a PID file), together with proofs of
the specification claims about it.

The embedding keeps the source structure: each Python function of the
lifecycle manager becomes a Lean definition of the same name.  The global
mutable pieces (the PID file on disk, the ARMA3_EXISTING_PID global, the
warning log) are threaded as an explicit InvState value.  OS effects
(os.kill probes, subprocess spawning, the passage of seconds in the stop
wait loop) are supplied as oracles, so that the definitions stay
executable.  The source reads a global CONFIG dict that the module never
defines (the subject of claim C1); the definitions below therefore take
the configuration values they need as explicit parameters.
-/

namespace A3sdt

/-- Python exceptions that the lifecycle code can raise before a command
handler runs: int() on a bad literal raises ValueError, and the assert in
check_for_orphaned_pid_file raises AssertionError. -/
inductive PyError
  | valueError
  | assertionError
  deriving DecidableEq

/-- Characters removed by Python str.strip (ASCII whitespace). -/
def pyIsSpace (c : Char) : Bool :=
  c == ' ' || c == '\t' || c == '\n' || c == '\r' || c == '\x0b' || c == '\x0c'

/-- Strip leading and trailing whitespace from a character list. -/
def stripChars (cs : List Char) : List Char :=
  ((cs.dropWhile pyIsSpace).reverse.dropWhile pyIsSpace).reverse

/-- Python str.strip. -/
def pyStrip (s : String) : String := ⟨stripChars s.toList⟩

/-- Value of a list of decimal digit characters, most significant first. -/
def decValue (cs : List Char) : Nat :=
  cs.foldl (fun a c => 10 * a + (c.toNat - 48)) 0

/-- Parse a nonempty all-digit character list; none otherwise. -/
def decDigitsToNat (cs : List Char) : Option Nat :=
  if cs.isEmpty then none
  else if cs.all Char.isDigit then some (decValue cs)
  else none

/-- Embeds the int(str) conversion used by read_pid: strip whitespace,
then an optional sign followed by a nonempty run of decimal digits;
anything else raises ValueError (modelled as none). -/
def pyInt (s : String) : Option Int :=
  match (pyStrip s).toList with
  | [] => none
  | c :: rest =>
    if c == '+' then (decDigitsToNat rest).map Int.ofNat
    else if c == '-' then (decDigitsToNat rest).map (fun n => -(n : Int))
    else (decDigitsToNat (c :: rest)).map Int.ofNat

/-- Decimal digit character for a value below ten. -/
def digitChar (d : Nat) : Char := Char.ofNat (48 + d)

/-- Fuelled most-significant-first decimal digits of n. -/
def natDecAux : Nat → Nat → List Char
  | 0, _ => []
  | fuel + 1, n =>
    if n < 10 then [digitChar n]
    else natDecAux fuel (n / 10) ++ [digitChar (n % 10)]

/-- Decimal representation of a natural number. -/
def natDec (n : Nat) : List Char := natDecAux (n + 1) n

/-- A character produced by natDecAux: a decimal digit, hence neither
whitespace nor a sign. -/
def goodDigit (c : Char) : Bool :=
  c.isDigit && !pyIsSpace c && !(c == '+') && !(c == '-')

/-- Embeds save_pid: the text written to the PID file is the decimal
representation of the PID (the Python percent-s formatting of an int). -/
def save_pid (pid : Int) : String :=
  if pid < 0 then ⟨ '-' :: natDec pid.natAbs⟩ else ⟨natDec pid.toNat⟩

/-- State visible to one CLI invocation: the PID file content (none when
the file is absent), the global ARMA3_EXISTING_PID, and how many warnings
have been logged so far. -/
structure InvState where
  fileContent : Option String
  existingPid : Option Int
  warnings : Nat
  deriving DecidableEq

/-- Embeds cleanup_pid_file: remove the PID file (a missing file is
ignored) and reset ARMA3_EXISTING_PID to None. -/
def cleanup_pid_file (s : InvState) : InvState :=
  { s with fileContent := none, existingPid := none }

/-- Embeds read_pid: if the PID file exists, set ARMA3_EXISTING_PID to
int of the stripped file content; unparseable content raises ValueError.
The error carries the state at the moment of the raise, which is
unchanged: nothing was mutated yet. -/
def read_pid (s : InvState) : Except (PyError × InvState) InvState :=
  match s.fileContent with
  | none => .ok s
  | some content =>
    match pyInt content with
    | none => .error (.valueError, s)
    | some p => .ok { s with existingPid := some p }

/-- Outcome of the liveness probe os.kill(pid, 0): success, or an OSError
with an errno (ESRCH = 3 when no such process exists, EPERM = 1 when the
process exists but the caller may not signal it). -/
inductive KillProbe
  | ok
  | osError (errno : Nat)
  deriving DecidableEq

/-- Embeds process_is_running: os.kill(pid, 0) inside try/except OSError.
Every OSError, including EPERM for a live process of another user, makes
it return False. -/
def process_is_running (probe : Int → KillProbe) (pid : Int) : Bool :=
  match probe pid with
  | .ok => true
  | .osError _ => false

/-- Embeds check_for_orphaned_pid_file: when the PID file exists, assert
ARMA3_EXISTING_PID (None and 0 are falsy, so the assert raises
AssertionError); then, if the recorded PID is not running, log one
warning and run cleanup_pid_file. -/
def check_for_orphaned_pid_file (probe : Int → KillProbe) (s : InvState) :
    Except (PyError × InvState) InvState :=
  match s.fileContent with
  | none => .ok s
  | some _ =>
    match s.existingPid with
    | none => .error (.assertionError, s)
    | some p =>
      if p = 0 then .error (.assertionError, s)
      else if process_is_running probe p then .ok s
      else .ok (cleanup_pid_file { s with warnings := s.warnings + 1 })

/-- The preamble main runs before dispatching to a handler (lines
319-320): read_pid followed by check_for_orphaned_pid_file, starting from
a fresh process (ARMA3_EXISTING_PID is None) and the given PID file. -/
def invocationPreamble (probe : Int → KillProbe) (file0 : Option String) :
    Except (PyError × InvState) InvState :=
  match read_pid { fileContent := file0, existingPid := none, warnings := 0 } with
  | .error e => .error e
  | .ok s => check_for_orphaned_pid_file probe s

/-- Result of asyncio.create_subprocess_exec in _launch_arma3_server:
either a spawned server process with its PID, or an OSError (missing
executable, permission denied) with an errno. -/
inductive SpawnOutcome
  | ok (serverPid : Int)
  | fail (errno : Nat)
  deriving DecidableEq

/-- How a start invocation ends.  alreadyRunningError names the
log.error plus sys.exit(1) path taken when ARMA3_EXISTING_PID is truthy;
spawnError names the child path where create_subprocess_exec raised, was
caught by the bare except clause and exited 1. -/
inductive StartOutcome
  | alreadyRunningError (pid : Int)
  | launched (serverPid : Int)
  | spawnError (errno : Nat)
  deriving DecidableEq

/-- Observable effect of handle_start.  cliExit is the exit status of the
CLI process (the fork parent); childExit is the eventual exit status of
the forked child when one was created; file is the PID file content
afterwards; spawnAttempts counts calls to create_subprocess_exec. -/
structure StartResult where
  outcome : StartOutcome
  cliExit : Nat
  childExit : Option Nat
  file : Option String
  spawnAttempts : Nat
  deriving DecidableEq

/-- The fork part of handle_start (source lines 236-269): the parent
falls out of the try block at once, so the CLI exits 0 without waiting;
the child runs _launch_arma3_server, which writes the PID file via
save_pid only after a successful spawn and eventually exits 0, or logs
the spawn exception and exits 1 leaving the PID file untouched. -/
def start_fork (spawn : SpawnOutcome) (s : InvState) : StartResult :=
  match spawn with
  | .ok q =>
    { outcome := .launched q, cliExit := 0, childExit := some 0,
      file := some (save_pid q), spawnAttempts := 1 }
  | .fail e =>
    { outcome := .spawnError e, cliExit := 0, childExit := some 1,
      file := s.fileContent, spawnAttempts := 1 }

/-- Embeds handle_start: if ARMA3_EXISTING_PID is truthy, log an error
carrying that PID and sys.exit(1) without forking; otherwise fork and
launch the server. -/
def handle_start (spawn : SpawnOutcome) (s : InvState) : StartResult :=
  match s.existingPid with
  | some p =>
    if p = 0 then start_fork spawn s
    else
      { outcome := .alreadyRunningError p, cliExit := 1, childExit := none,
        file := s.fileContent, spawnAttempts := 0 }
  | none => start_fork spawn s

/-- Signals sent by handle_stop. -/
inductive Signal
  | sigterm
  | sigkill
  deriving DecidableEq

/-- The wait loop of handle_stop, indexed by seconds after the SIGTERM.
aliveAt t is what process_is_running observes at the poll in second t; T
is the configured arma3_sigterm_timeout_seconds.  Returns the seconds at
which a SIGKILL was sent, or none when the loop did not observe death
within fuel polls. -/
def stopWait (aliveAt : Nat → Bool) (T : Nat) : Nat → Nat → Option (List Nat)
  | 0, _ => none
  | fuel + 1, t =>
    if aliveAt t then
      match stopWait aliveAt T fuel (t + 1) with
      | none => none
      | some kills => some (if T ≤ t then t :: kills else kills)
    else some []

/-- How a stop invocation ends. -/
inductive StopOutcome
  | notRunningError
  | stopped (pid : Int)
  deriving DecidableEq

/-- Observable effect of handle_stop: its exit status, the
(second, signal) events in order, and the state afterwards. -/
structure StopResult where
  outcome : StopOutcome
  exitCode : Nat
  signals : List (Nat × Signal)
  state : InvState
  deriving DecidableEq

/-- Embeds handle_stop: if ARMA3_EXISTING_PID is falsy, log an error and
sys.exit(1) having sent no signal; otherwise send SIGTERM at second 0,
poll liveness once per second, send SIGKILL at every poll from second T
onward that still sees the process alive, and once the process is seen
dead run cleanup_pid_file and exit 0.  The none result models a loop
that never observes death. -/
def handle_stop (aliveAt : Nat → Bool) (T fuel : Nat) (s : InvState) :
    Option StopResult :=
  match s.existingPid with
  | none =>
    some { outcome := .notRunningError, exitCode := 1, signals := [], state := s }
  | some p =>
    if p = 0 then
      some { outcome := .notRunningError, exitCode := 1, signals := [], state := s }
    else
      match stopWait aliveAt T fuel 0 with
      | none => none
      | some kills =>
        some { outcome := .stopped p, exitCode := 0,
               signals := (0, Signal.sigterm) :: kills.map (fun t => (t, Signal.sigkill)),
               state := cleanup_pid_file s }

/-- Observable effect of handle_restart: the stop part, the start part
when it was attempted, and the exit status of the invocation. -/
structure RestartResult where
  stopPart : StopResult
  startPart : Option StartResult
  exitCode : Nat
  deriving DecidableEq

/-- Embeds handle_restart: handle_stop then handle_start.  sys.exit(1)
inside a failing handle_stop raises SystemExit, which propagates out of
handle_restart, so handle_start is not attempted and the stop exit
status becomes the exit status of the invocation. -/
def handle_restart (aliveAt : Nat → Bool) (T fuel : Nat) (spawn : SpawnOutcome)
    (s : InvState) : Option RestartResult :=
  match handle_stop aliveAt T fuel s with
  | none => none
  | some r =>
    match r.outcome with
    | .notRunningError =>
      some { stopPart := r, startPart := none, exitCode := r.exitCode }
    | .stopped _ =>
      some { stopPart := r, startPart := some (handle_start spawn r.state),
             exitCode := (handle_start spawn r.state).cliExit }

/-- A full start invocation: the main preamble, then handle_start. -/
def run_command_start (probe : Int → KillProbe) (spawn : SpawnOutcome)
    (file0 : Option String) : Except (PyError × InvState) StartResult :=
  match invocationPreamble probe file0 with
  | .error e => .error e
  | .ok s => .ok (handle_start spawn s)

/-- A full stop invocation: the main preamble, then handle_stop. -/
def run_command_stop (probe : Int → KillProbe) (aliveAt : Nat → Bool) (T fuel : Nat)
    (file0 : Option String) : Except (PyError × InvState) (Option StopResult) :=
  match invocationPreamble probe file0 with
  | .error e => .error e
  | .ok s => .ok (handle_stop aliveAt T fuel s)

/-- A full restart invocation: the main preamble, then handle_restart. -/
def run_command_restart (probe : Int → KillProbe) (aliveAt : Nat → Bool) (T fuel : Nat)
    (spawn : SpawnOutcome) (file0 : Option String) :
    Except (PyError × InvState) (Option RestartResult) :=
  match invocationPreamble probe file0 with
  | .error e => .error e
  | .ok s => .ok (handle_restart aliveAt T fuel spawn s)

/-! ## Module-level execution (claim C1)

a3sdt.py fails before any handler can run: the module top level evaluates
an expression that reads a global named CONFIG, but the module only ever
binds BASE_CONFIG.  The statements are modelled by the global names they
read when executed and the names they bind. -/

/-- A top-level Python statement, abstracted to the global names it reads
when executed and the global names it binds.  A def statement binds its
name without reading the globals its body mentions; those are read when
the function is called. -/
structure PyStmt where
  reads : List String
  binds : List String

/-- Execute top-level statements in order: the first statement reading a
name not yet bound raises NameError naming it; otherwise its bindings are
added to the environment. -/
def execStmts : List String → List PyStmt → Except String (List String)
  | env, [] => .ok env
  | env, st :: rest =>
    match st.reads.find? (fun n => !env.contains n) with
    | some n => .error n
    | none => execStmts (st.binds ++ env) rest

/-- The top level of a3sdt.py in execution order (source line numbers in
the comments).  The dictConfig argument at lines 102-153 evaluates
CONFIG at line 122 and again at line 131; no statement binds CONFIG. -/
def a3sdtModule : List PyStmt := [
  { reads := [], binds := ["os", "sys", "json", "time", "signal", "asyncio", "logging"] },  -- lines 3-9
  { reads := [], binds := ["ArgumentParser", "ArgumentError"] },  -- line 10
  { reads := [], binds := ["PIPE"] },  -- line 11
  { reads := [], binds := ["BASE_CONFIG"] },  -- lines 16-30, a literal dict
  { reads := [], binds := ["find_manifest"] },  -- line 75
  { reads := [], binds := ["load_config"] },  -- line 89
  { reads := ["logging", "os", "CONFIG"], binds := [] },  -- lines 102-153, dictConfig call
  { reads := ["logging"], binds := ["log"] },  -- line 154
  { reads := [], binds := ["ARMA3_EXISTING_PID"] },  -- line 156
  { reads := [], binds := ["cleanup_pid_file"] },  -- line 159
  { reads := [], binds := ["save_pid"] },  -- line 169
  { reads := [], binds := ["read_pid"] },  -- line 174
  { reads := [], binds := ["process_is_running"] },  -- line 181
  { reads := [], binds := ["check_for_orphaned_pid_file"] },  -- line 190
  { reads := [], binds := ["_read_and_log"] },  -- line 198
  { reads := [], binds := ["_launch_arma3_server"] },  -- line 206
  { reads := [], binds := ["handle_start"] },  -- line 221
  { reads := [], binds := ["handle_stop"] },  -- line 273
  { reads := [], binds := ["handle_restart"] },  -- line 295
  { reads := [], binds := ["create_parser_and_handlers"] },  -- line 300
  { reads := [], binds := ["main"] },  -- line 318
  { reads := ["main"], binds := [] }  -- lines 331-332, the dunder-main guard calling main
]

/-- The CLI subcommands of the tool. -/
inductive CliCommand
  | start
  | stop
  | restart
  deriving DecidableEq

/-- Running the tool with any command first executes the module top
level; the NameError there is raised before the command line is even
parsed, so the outcome does not depend on the chosen command. -/
def runInvocation (_cmd : CliCommand) : Except String (List String) :=
  execStmts [] a3sdtModule

/-- Global names read by the body of main (lines 318-328) in source
order.  config_filename is read by the open call at line 322. -/
def mainBodyReads : List String :=
  ["read_pid", "check_for_orphaned_pid_file", "config_filename", "json",
   "create_parser_and_handlers"]

/-- Every global name the module ever binds. -/
def moduleBinds : List String := (a3sdtModule.map PyStmt.binds).flatten

/-! ## The cross-invocation transition system (claim C3)

A world is the PID file plus the set of live (signalable) processes.
Each lifecycle invocation derives its view of the world from these via
the preamble, acts, and leaves a new world. -/

/-- The world a sequence of invocations acts on: the PID file and the
list of live process ids. -/
structure World where
  file : Option String
  live : List Int
  deriving DecidableEq

/-- The OS probe induced by the process table: os.kill(p, 0) succeeds
exactly for live pids and raises ESRCH otherwise. -/
def probeOf (live : List Int) : Int → KillProbe :=
  fun p => if p ∈ live then .ok else .osError 3

/-- One lifecycle invocation, or an environment event, with its oracle
data: a start whose spawn either fails (none) or yields the given server
pid, a stop whose target is observed dead at poll d, or a spontaneous
death of process p between invocations. -/
inductive Cmd
  | start (spawn : Option Int)
  | stop (d : Nat)
  | crash (p : Int)
  deriving DecidableEq

/-- Whether the step is the environment event rather than a command. -/
def Cmd.isCrash : Cmd → Bool
  | .crash _ => true
  | _ => false

/-- Spawned pids name real processes, so they are positive. -/
def Cmd.wf : Cmd → Bool
  | .start (some q) => decide (0 < q)
  | _ => true

/-- Oracle data of a start step as a spawn result. -/
def spawnOf : Option Int → SpawnOutcome
  | some q => .ok q
  | none => .fail 2

/-- Effect of one command invocation (or crash) on the world.  An
invocation aborted by ValueError or AssertionError in the preamble
leaves the PID file as it was at the raise; a successful spawn adds the
new server to the process table; a completed stop removes its target. -/
def execCmd (T : Nat) (w : World) : Cmd → World
  | .start spawn =>
    match run_command_start (probeOf w.live) (spawnOf spawn) w.file with
    | .error es => { file := es.2.fileContent, live := w.live }
    | .ok r =>
      { file := r.file,
        live := match r.outcome with
                | .launched q => q :: w.live
                | _ => w.live }
  | .stop d =>
    match run_command_stop (probeOf w.live) (fun t => decide (t < d)) T (d + 1) w.file with
    | .error es => { file := es.2.fileContent, live := w.live }
    | .ok none => w
    | .ok (some r) =>
      { file := r.state.fileContent,
        live := match r.outcome with
                | .stopped p => w.live.erase p
                | _ => w.live }
  | .crash p => { file := w.file, live := w.live.erase p }

/-- Run a sequence of steps from a world. -/
def execSeq (T : Nat) (w : World) (cs : List Cmd) : World :=
  cs.foldl (execCmd T) w

/-- The PID file, when present, holds the decimal text of a positive
pid.  This is the part of the invariant that survives crashes. -/
def World.parseable (w : World) : Prop :=
  ∀ s, w.file = some s → ∃ p, pyInt s = some p ∧ 0 < p

/-- The PID file exists only in the RUNNING state: whenever it is
present it parses to a positive pid that is live.  Equivalently, the
world is never ORPHANED (file present, pid dead). -/
def World.noOrphan (w : World) : Prop :=
  ∀ s, w.file = some s → ∃ p, pyInt s = some p ∧ 0 < p ∧ p ∈ w.live

/-! ## Helper lemmas: save_pid / read_pid round trip -/

theorem goodDigit_props {c : Char} (h : goodDigit c = true) :
    c.isDigit = true ∧ pyIsSpace c = false ∧ (c == '+') = false ∧ (c == '-') = false := by
  simp only [goodDigit, Bool.and_eq_true, Bool.not_eq_true'] at h
  exact ⟨h.1.1.1, h.1.1.2, h.1.2, h.2⟩

theorem digitChar_good {d : Nat} (hd : d < 10) :
    goodDigit (digitChar d) = true ∧ (digitChar d).toNat - 48 = d := by
  interval_cases d <;> exact ⟨by decide, by decide⟩

theorem decValue_append (cs : List Char) (c : Char) :
    decValue (cs ++ [c]) = 10 * decValue cs + (c.toNat - 48) := by
  simp [decValue, List.foldl_append]

theorem natDecAux_spec (fuel : Nat) : ∀ n, n < fuel →
    natDecAux fuel n ≠ [] ∧ (∀ c ∈ natDecAux fuel n, goodDigit c = true) ∧
    decValue (natDecAux fuel n) = n := by
  induction fuel with
  | zero => intro n hn; omega
  | succ fuel ih =>
    intro n hn
    by_cases h : n < 10
    · refine ⟨by simp [natDecAux, h], ?_, ?_⟩
      · intro c hc
        simp only [natDecAux, if_pos h, List.mem_singleton] at hc
        subst hc
        exact (digitChar_good h).1
      · simp only [natDecAux, if_pos h]
        have := (digitChar_good h).2
        simp [decValue, this]
    · have hdiv : n / 10 < n := Nat.div_lt_self (by omega) (by omega)
      obtain ⟨h1, h2, h3⟩ := ih (n / 10) (by omega)
      have hmod : n % 10 < 10 := Nat.mod_lt _ (by omega)
      refine ⟨by simp [natDecAux, if_neg h], ?_, ?_⟩
      · intro c hc
        simp only [natDecAux, if_neg h, List.mem_append, List.mem_singleton] at hc
        rcases hc with hc | hc
        · exact h2 c hc
        · subst hc; exact (digitChar_good hmod).1
      · simp only [natDecAux, if_neg h, decValue_append, h3, (digitChar_good hmod).2]
        omega

theorem natDec_spec (n : Nat) :
    natDec n ≠ [] ∧ (∀ c ∈ natDec n, goodDigit c = true) ∧ decValue (natDec n) = n :=
  natDecAux_spec (n + 1) n (Nat.lt_succ_self n)

theorem dropWhile_space_eq_self (cs : List Char) (h : ∀ c ∈ cs, pyIsSpace c = false) :
    cs.dropWhile pyIsSpace = cs := by
  cases cs with
  | nil => rfl
  | cons a l =>
    have ha := h a (List.mem_cons_self a l)
    simp [List.dropWhile_cons, ha]

theorem stripChars_eq_self (cs : List Char) (h : ∀ c ∈ cs, pyIsSpace c = false) :
    stripChars cs = cs := by
  unfold stripChars
  rw [dropWhile_space_eq_self cs h,
    dropWhile_space_eq_self cs.reverse (fun c hc => h c (List.mem_reverse.mp hc)),
    List.reverse_reverse]

theorem pyInt_save_pid (q : Int) (hq : 0 < q) : pyInt (save_pid q) = some q := by
  have hq0 : ¬ q < 0 := by omega
  obtain ⟨hne, hgood, hval⟩ := natDec_spec q.toNat
  have hsp : save_pid q = ⟨natDec q.toNat⟩ := by simp [save_pid, hq0]
  have hlist : (pyStrip ⟨natDec q.toNat⟩).toList = natDec q.toNat := by
    show stripChars (natDec q.toNat) = natDec q.toNat
    exact stripChars_eq_self _ (fun c hc => (goodDigit_props (hgood c hc)).2.1)
  rw [hsp]
  unfold pyInt
  rw [hlist]
  cases hcs : natDec q.toNat with
  | nil => exact absurd hcs hne
  | cons c rest =>
    have hc := hgood c (by rw [hcs]; exact List.mem_cons_self c rest)
    obtain ⟨hdig, _, hplus, hminus⟩ := goodDigit_props hc
    simp only [hplus, hminus, Bool.false_eq_true, if_false]
    have halldig : (c :: rest).all Char.isDigit = true := by
      rw [List.all_eq_true]
      intro x hx
      exact (goodDigit_props (hgood x (by rw [hcs]; exact hx))).1
    have hv : decValue (c :: rest) = q.toNat := by rw [← hcs]; exact hval
    simp only [decDigitsToNat, List.isEmpty_cons, halldig, hv, if_true, if_false,
      Bool.false_eq_true, Option.map_some']
    congr 1
    exact Int.toNat_of_nonneg (le_of_lt hq)

/-! ## Helper lemmas: the invocation preamble -/

theorem invocationPreamble_absent (probe : Int → KillProbe) :
    invocationPreamble probe none =
      .ok { fileContent := none, existingPid := none, warnings := 0 } := rfl

theorem invocationPreamble_live (probe : Int → KillProbe) (s : String) (p : Int)
    (hparse : pyInt s = some p) (hp : p ≠ 0)
    (hlive : process_is_running probe p = true) :
    invocationPreamble probe (some s) =
      .ok { fileContent := some s, existingPid := some p, warnings := 0 } := by
  unfold invocationPreamble read_pid
  simp only [hparse]
  unfold check_for_orphaned_pid_file
  simp [hp, hlive]

theorem invocationPreamble_orphan (probe : Int → KillProbe) (s : String) (p : Int)
    (hparse : pyInt s = some p) (hp : p ≠ 0)
    (hdead : process_is_running probe p = false) :
    invocationPreamble probe (some s) =
      .ok { fileContent := none, existingPid := none, warnings := 1 } := by
  unfold invocationPreamble read_pid
  simp only [hparse]
  unfold check_for_orphaned_pid_file cleanup_pid_file
  simp [hp, hdead]

theorem invocationPreamble_badContent (probe : Int → KillProbe) (s : String)
    (hparse : pyInt s = none) :
    invocationPreamble probe (some s) =
      .error (.valueError, { fileContent := some s, existingPid := none, warnings := 0 }) := by
  unfold invocationPreamble read_pid
  simp [hparse]

theorem invocationPreamble_zeroContent (probe : Int → KillProbe) (s : String)
    (hparse : pyInt s = some 0) :
    invocationPreamble probe (some s) =
      .error (.assertionError,
        { fileContent := some s, existingPid := some 0, warnings := 0 }) := by
  unfold invocationPreamble read_pid
  simp only [hparse]
  unfold check_for_orphaned_pid_file
  simp

/-! ## Helper lemmas: the stop wait loop -/

theorem stopWait_eq (aliveAt : Nat → Bool) (T d : Nat)
    (halive : ∀ t, t < d → aliveAt t = true) (hdead : aliveAt d = false) :
    ∀ fuel t, t ≤ d → d < t + fuel →
    stopWait aliveAt T fuel t =
      some ((List.range' t (d - t)).filter (fun x => decide (T ≤ x))) := by
  intro fuel
  induction fuel with
  | zero => intro t ht hlt; omega
  | succ fuel ih =>
    intro t ht hlt
    by_cases h : t = d
    · subst h
      simp [stopWait, hdead]
    · have htd : t < d := by omega
      have hrange : List.range' t (d - t) = t :: List.range' (t + 1) (d - (t + 1)) := by
        have h1 : d - t = (d - (t + 1)) + 1 := by omega
        rw [h1, List.range'_succ]
      rw [hrange]
      simp only [stopWait, halive t htd, if_true, ih (t + 1) (by omega) (by omega),
        List.filter_cons]
      by_cases hT : T ≤ t
      · simp [hT]
      · simp [hT]

theorem handle_stop_running (aliveAt : Nat → Bool) (T fuel d : Nat) (s : InvState)
    (p : Int) (hpid : s.existingPid = some p) (hp : p ≠ 0)
    (halive : ∀ t, t < d → aliveAt t = true) (hdead : aliveAt d = false)
    (hfuel : d < fuel) :
    handle_stop aliveAt T fuel s =
      some { outcome := .stopped p, exitCode := 0,
             signals := (0, Signal.sigterm) ::
               ((List.range' 0 d).filter (fun x => decide (T ≤ x))).map
                 (fun t => (t, Signal.sigkill)),
             state := cleanup_pid_file s } := by
  unfold handle_stop
  simp only [hpid, if_neg hp]
  rw [stopWait_eq aliveAt T d halive hdead fuel 0 (Nat.zero_le d) (by omega)]
  simp [Nat.sub_zero]

/-! ## Claim C1 -/

/-- C1: every invocation of the lifecycle tool fails before any command
handler runs.  The module top level evaluates an expression reading the
global CONFIG, which no statement binds (only BASE_CONFIG is bound), so
for every command the run raises NameError naming CONFIG; and the body
of main reads config_filename, another name the module never binds. -/
theorem lifecycle_never_reaches_handlers :
    (runInvocation .start = .error "CONFIG" ∧
     runInvocation .stop = .error "CONFIG" ∧
     runInvocation .restart = .error "CONFIG") ∧
    "config_filename" ∈ mainBodyReads ∧ "config_filename" ∉ moduleBinds :=
  ⟨⟨rfl, rfl, rfl⟩, by decide, by decide⟩

/-! ## Claim C2 -/

/-- C2, amended: from the STOPPED state handle_start forks; on a spawn
failure no PID file is written and the forked child logs the exception
and exits 1, but no SpawnError reaches the CLI invocation, which (being
the fork parent that does not wait for the spawn) exits 0 rather than
nonzero; on a successful spawn the CLI exits 0 and the child persists
the server PID. -/
theorem start_spawn_failure_amended (s : InvState) (e : Nat) (q : Int)
    (hpid : s.existingPid = none) (hfile : s.fileContent = none) :
    handle_start (.fail e) s =
      { outcome := .spawnError e, cliExit := 0, childExit := some 1,
        file := none, spawnAttempts := 1 } ∧
    handle_start (.ok q) s =
      { outcome := .launched q, cliExit := 0, childExit := some 0,
        file := some (save_pid q), spawnAttempts := 1 } := by
  unfold handle_start start_fork
  simp [hpid, hfile]

/-- C2 witness: the amended behaviour at a concrete STOPPED state. -/
theorem start_spawn_failure_amended_witness :
    handle_start (.fail 13) { fileContent := none, existingPid := none, warnings := 0 } =
      { outcome := .spawnError 13, cliExit := 0, childExit := some 1,
        file := none, spawnAttempts := 1 } ∧
    handle_start (.ok 55) { fileContent := none, existingPid := none, warnings := 0 } =
      { outcome := .launched 55, cliExit := 0, childExit := some 0,
        file := some (save_pid 55), spawnAttempts := 1 } :=
  start_spawn_failure_amended
    { fileContent := none, existingPid := none, warnings := 0 } 13 55 rfl rfl

/-- C2 counterexample: with no server recorded (state STOPPED) and a
failing spawn, the CLI invocation exits 0, where the claim requires a
nonzero exit with a SpawnError. -/
theorem start_spawn_failure_cli_exits_zero :
    (handle_start (SpawnOutcome.fail 2)
      { fileContent := none, existingPid := none, warnings := 0 }).cliExit = 0 := rfl

/-! ## Claim C4 -/

/-- C4: a start invocation beginning with a PID file whose recorded pid
is a live process fails on the already-running path carrying that pid,
exits 1, and never forks or spawns a second server process. -/
theorem start_when_running_fails (probe : Int → KillProbe) (spawn : SpawnOutcome)
    (s : String) (p : Int) (hparse : pyInt s = some p) (hp : p ≠ 0)
    (hlive : process_is_running probe p = true) :
    run_command_start probe spawn (some s) =
      .ok { outcome := .alreadyRunningError p, cliExit := 1, childExit := none,
            file := some s, spawnAttempts := 0 } := by
  unfold run_command_start
  rw [invocationPreamble_live probe s p hparse hp hlive]
  unfold handle_start
  simp [hp]

/-- C4 witness: pid 42 live, a start invocation fails without spawning. -/
theorem start_when_running_fails_witness :
    run_command_start (fun _ => KillProbe.ok) (SpawnOutcome.ok 99) (some "42") =
      .ok { outcome := .alreadyRunningError 42, cliExit := 1, childExit := none,
            file := some "42", spawnAttempts := 0 } :=
  start_when_running_fails (fun _ => KillProbe.ok) (SpawnOutcome.ok 99) "42" 42 rfl
    (by decide) rfl

/-! ## Claim C5 -/

/-- C5: a stop invocation in the STOPPED state (no recorded pid after the
preamble) fails on the not-running path, exits 1, and sends no signal to
any process. -/
theorem stop_when_stopped_fails (probe : Int → KillProbe) (aliveAt : Nat → Bool)
    (T fuel : Nat) (file0 : Option String) (s : InvState)
    (hpre : invocationPreamble probe file0 = .ok s) (hpid : s.existingPid = none) :
    run_command_stop probe aliveAt T fuel file0 =
      .ok (some { outcome := .notRunningError, exitCode := 1, signals := [],
                  state := s }) := by
  unfold run_command_stop
  rw [hpre]
  unfold handle_stop
  simp [hpid]

/-- C5 witness: stop with no PID file fails and sends nothing. -/
theorem stop_when_stopped_fails_witness :
    run_command_stop (fun _ => KillProbe.ok) (fun _ => true) 5 9 none =
      .ok (some { outcome := .notRunningError, exitCode := 1, signals := [],
                  state := { fileContent := none, existingPid := none, warnings := 0 } }) :=
  stop_when_stopped_fails (fun _ => KillProbe.ok) (fun _ => true) 5 9 none
    { fileContent := none, existingPid := none, warnings := 0 } rfl rfl

/-! ## Claim C6 -/

/-- C6: a command invocation that begins with a PID file whose recorded
pid is not a live process logs exactly one warning, deletes the file,
resets the in-memory record to absent, and then runs its handler on
exactly the STOPPED state, whichever of the three commands it is. -/
theorem orphan_cleanup_behaviour (probe : Int → KillProbe) (s : String) (p : Int)
    (hparse : pyInt s = some p) (hp : p ≠ 0)
    (hdead : process_is_running probe p = false) :
    invocationPreamble probe (some s) =
      .ok { fileContent := none, existingPid := none, warnings := 1 } ∧
    (∀ spawn, run_command_start probe spawn (some s) =
      .ok (handle_start spawn { fileContent := none, existingPid := none, warnings := 1 })) ∧
    (∀ aliveAt T fuel, run_command_stop probe aliveAt T fuel (some s) =
      .ok (handle_stop aliveAt T fuel
        { fileContent := none, existingPid := none, warnings := 1 })) ∧
    (∀ aliveAt T fuel spawn, run_command_restart probe aliveAt T fuel spawn (some s) =
      .ok (handle_restart aliveAt T fuel spawn
        { fileContent := none, existingPid := none, warnings := 1 })) := by
  have h := invocationPreamble_orphan probe s p hparse hp hdead
  refine ⟨h, ?_, ?_, ?_⟩ <;> intros <;>
    simp [run_command_start, run_command_stop, run_command_restart, h]

/-- C6 witness: a dead pid 7 recorded in the file is cleaned up once. -/
theorem orphan_cleanup_behaviour_witness :
    invocationPreamble (fun _ => KillProbe.osError 3) (some "7") =
      .ok { fileContent := none, existingPid := none, warnings := 1 } :=
  (orphan_cleanup_behaviour (fun _ => KillProbe.osError 3) "7" 7 rfl (by decide) rfl).1

/-! ## Claim C9 -/

/-- C9: process_is_running returns False whenever os.kill(pid, 0) raises
any OSError, a permission error for a live process of another user
included; the preamble consequently deletes the PID file of such a live
but non-signalable server exactly as if it were stopped. -/
theorem probe_oserror_treated_dead (probe : Int → KillProbe) (p : Int) (e : Nat)
    (s : String) (hprobe : probe p = .osError e) (hparse : pyInt s = some p)
    (hp : p ≠ 0) :
    process_is_running probe p = false ∧
    invocationPreamble probe (some s) =
      .ok { fileContent := none, existingPid := none, warnings := 1 } := by
  have hrun : process_is_running probe p = false := by
    unfold process_is_running
    rw [hprobe]
  exact ⟨hrun, invocationPreamble_orphan probe s p hparse hp hrun⟩

/-- C9 witness: EPERM (errno 1) against pid 314 is treated as dead and
its PID file is removed. -/
theorem probe_oserror_treated_dead_witness :
    process_is_running (fun _ => KillProbe.osError 1) 314 = false ∧
    invocationPreamble (fun _ => KillProbe.osError 1) (some "314") =
      .ok { fileContent := none, existingPid := none, warnings := 1 } :=
  probe_oserror_treated_dead (fun _ => KillProbe.osError 1) 314 1 "314" rfl rfl
    (by decide)

/-! ## Claim C10 -/

/-- C10: a PID file holding the decimal 0 makes the assert in
check_for_orphaned_pid_file raise AssertionError, and empty or
non-numeric content makes int() in read_pid raise ValueError; either way
the invocation aborts before any handler runs and the carried state
still holds the PID file. -/
theorem bad_pid_file_aborts :
    (∀ (probe : Int → KillProbe) (s : String), pyInt s = some 0 →
      invocationPreamble probe (some s) =
        .error (.assertionError,
          { fileContent := some s, existingPid := some 0, warnings := 0 })) ∧
    (∀ (probe : Int → KillProbe) (s : String), pyInt s = none →
      invocationPreamble probe (some s) =
        .error (.valueError,
          { fileContent := some s, existingPid := none, warnings := 0 })) ∧
    (∀ (probe : Int → KillProbe) (spawn : SpawnOutcome) (s : String), pyInt s = some 0 →
      run_command_start probe spawn (some s) =
        .error (.assertionError,
          { fileContent := some s, existingPid := some 0, warnings := 0 })) := by
  refine ⟨?_, ?_, ?_⟩
  · intro probe s h
    exact invocationPreamble_zeroContent probe s h
  · intro probe s h
    exact invocationPreamble_badContent probe s h
  · intro probe spawn s h
    unfold run_command_start
    rw [invocationPreamble_zeroContent probe s h]

/-- C10 witness: the three concrete contents 0, abc and the empty
string, with the file left in place. -/
theorem bad_pid_file_aborts_witness :
    invocationPreamble (fun _ => KillProbe.ok) (some "0") =
      .error (.assertionError,
        { fileContent := some "0", existingPid := some 0, warnings := 0 }) ∧
    invocationPreamble (fun _ => KillProbe.ok) (some "abc") =
      .error (.valueError,
        { fileContent := some "abc", existingPid := none, warnings := 0 }) ∧
    invocationPreamble (fun _ => KillProbe.ok) (some "") =
      .error (.valueError,
        { fileContent := some "", existingPid := none, warnings := 0 }) :=
  ⟨bad_pid_file_aborts.1 _ "0" rfl, bad_pid_file_aborts.2.1 _ "abc" rfl,
   bad_pid_file_aborts.2.1 _ "" rfl⟩

/-! ## Claim C7 -/

/-- C7: stopping a RUNNING server sends exactly one SIGTERM, at second 0
(the head of the signal trace; every other event is a SIGKILL); liveness
is then polled once per second; a SIGKILL is sent if and only if the
process is still alive once the grace period T has elapsed, and never at
a second earlier than T.  Here d is the first poll that observes the
process dead, so the process is alive at the poll at second T exactly
when T < d. -/
theorem stop_escalation_timing (aliveAt : Nat → Bool) (T fuel d : Nat) (s : InvState)
    (p : Int) (hpid : s.existingPid = some p) (hp : p ≠ 0)
    (halive : ∀ t, t < d → aliveAt t = true) (hdead : aliveAt d = false)
    (hfuel : d < fuel) :
    ∃ kills : List Nat, handle_stop aliveAt T fuel s =
        some { outcome := .stopped p, exitCode := 0,
               signals := (0, Signal.sigterm) :: kills.map (fun t => (t, Signal.sigkill)),
               state := cleanup_pid_file s } ∧
      (∀ t ∈ kills, T ≤ t) ∧ ((∃ t, t ∈ kills) ↔ T < d) := by
  refine ⟨(List.range' 0 d).filter (fun x => decide (T ≤ x)),
    handle_stop_running aliveAt T fuel d s p hpid hp halive hdead hfuel, ?_, ?_⟩
  · intro t ht
    exact of_decide_eq_true (List.mem_filter.mp ht).2
  · constructor
    · rintro ⟨t, ht⟩
      obtain ⟨hmem, hT⟩ := List.mem_filter.mp ht
      have hT2 := of_decide_eq_true hT
      obtain ⟨i, hi, hti⟩ := List.mem_range'.mp hmem
      omega
    · intro hTd
      refine ⟨T, List.mem_filter.mpr ⟨List.mem_range'.mpr ⟨T, hTd, by omega⟩, ?_⟩⟩
      exact decide_eq_true (le_refl T)

/-- C7 witness: grace period 2, process dies at the poll in second 3;
escalation happens, and only at seconds at or past the deadline. -/
theorem stop_escalation_timing_witness :
    ∃ kills : List Nat, handle_stop (fun t => decide (t < 3)) 2 4
        { fileContent := some "7", existingPid := some 7, warnings := 0 } =
        some { outcome := .stopped 7, exitCode := 0,
               signals := (0, Signal.sigterm) :: kills.map (fun t => (t, Signal.sigkill)),
               state := cleanup_pid_file
                 { fileContent := some "7", existingPid := some 7, warnings := 0 } } ∧
      (∀ t ∈ kills, 2 ≤ t) ∧ ((∃ t, t ∈ kills) ↔ 2 < 3) :=
  stop_escalation_timing (fun t => decide (t < 3)) 2 4 3
    { fileContent := some "7", existingPid := some 7, warnings := 0 } 7 rfl
    (by decide) (fun t ht => decide_eq_true ht) (by decide) (by decide)

/-! ## Claim C8 -/

/-- C8: restart is strictly stop followed by start: when stop fails (its
NotRunningError path, sys.exit(1)) the failure propagates, restart exits
1 and start is never attempted; when stop succeeds, start runs on the
cleaned-up state and the exit status of restart is the exit status of
start. -/
theorem restart_sequencing :
    (∀ (aliveAt : Nat → Bool) (T fuel : Nat) (spawn : SpawnOutcome) (s : InvState),
      s.existingPid = none →
      handle_restart aliveAt T fuel spawn s =
        some { stopPart := { outcome := .notRunningError, exitCode := 1,
                             signals := [], state := s },
               startPart := none, exitCode := 1 }) ∧
    (∀ (aliveAt : Nat → Bool) (T fuel d : Nat) (spawn : SpawnOutcome) (s : InvState)
      (p : Int),
      s.existingPid = some p → p ≠ 0 →
      (∀ t, t < d → aliveAt t = true) → aliveAt d = false → d < fuel →
      ∃ r, handle_restart aliveAt T fuel spawn s = some r ∧
        r.stopPart.outcome = .stopped p ∧
        r.startPart = some (handle_start spawn (cleanup_pid_file s)) ∧
        r.exitCode = (handle_start spawn (cleanup_pid_file s)).cliExit) := by
  constructor
  · intro aliveAt T fuel spawn s hpid
    unfold handle_restart handle_stop
    simp [hpid]
  · intro aliveAt T fuel d spawn s p hpid hp halive hdead hfuel
    have h := handle_stop_running aliveAt T fuel d s p hpid hp halive hdead hfuel
    unfold handle_restart
    rw [h]
    exact ⟨_, rfl, rfl, rfl, rfl⟩

/-- C8 witness: restart on a STOPPED state surfaces the stop failure and
never starts; restart on a RUNNING state runs start after stop and
takes its exit status. -/
theorem restart_sequencing_witness :
    handle_restart (fun _ => true) 5 9 (SpawnOutcome.ok 99)
        { fileContent := none, existingPid := none, warnings := 0 } =
      some { stopPart := { outcome := .notRunningError, exitCode := 1, signals := [],
                           state := { fileContent := none, existingPid := none,
                                      warnings := 0 } },
             startPart := none, exitCode := 1 } ∧
    (∃ r, handle_restart (fun t => decide (t < 3)) 2 4 (SpawnOutcome.ok 99)
          { fileContent := some "7", existingPid := some 7, warnings := 0 } = some r ∧
      r.stopPart.outcome = .stopped 7 ∧
      r.startPart = some (handle_start (SpawnOutcome.ok 99) (cleanup_pid_file
        { fileContent := some "7", existingPid := some 7, warnings := 0 })) ∧
      r.exitCode = (handle_start (SpawnOutcome.ok 99) (cleanup_pid_file
        { fileContent := some "7", existingPid := some 7, warnings := 0 })).cliExit) :=
  ⟨restart_sequencing.1 (fun _ => true) 5 9 (SpawnOutcome.ok 99)
      { fileContent := none, existingPid := none, warnings := 0 } rfl,
   restart_sequencing.2 (fun t => decide (t < 3)) 2 4 3 (SpawnOutcome.ok 99)
      { fileContent := some "7", existingPid := some 7, warnings := 0 } 7 rfl
      (by decide) (fun t ht => decide_eq_true ht) (by decide) (by decide)⟩

/-! ## Claim C3: the PID file / RUNNING invariant -/

theorem probeOf_running {live : List Int} {p : Int} (h : p ∈ live) :
    process_is_running (probeOf live) p = true := by
  simp [process_is_running, probeOf, h]

theorem probeOf_not_running {live : List Int} {p : Int} (h : p ∉ live) :
    process_is_running (probeOf live) p = false := by
  simp [process_is_running, probeOf, h]

/-- On a parseable world the preamble ends in one of three ways: the
STOPPED state (file was absent), the STOPPED state after one orphan
cleanup, or the RUNNING state with the live recorded pid. -/
theorem preamble_cases (w : World) (hw : w.parseable) :
    invocationPreamble (probeOf w.live) w.file =
      .ok { fileContent := none, existingPid := none, warnings := 0 } ∨
    invocationPreamble (probeOf w.live) w.file =
      .ok { fileContent := none, existingPid := none, warnings := 1 } ∨
    ∃ str p, w.file = some str ∧ pyInt str = some p ∧ 0 < p ∧ p ∈ w.live ∧
      invocationPreamble (probeOf w.live) w.file =
        .ok { fileContent := some str, existingPid := some p, warnings := 0 } := by
  cases hfile : w.file with
  | none => exact Or.inl (invocationPreamble_absent _)
  | some str =>
    obtain ⟨p, hparse, hp⟩ := hw str hfile
    by_cases hmem : p ∈ w.live
    · exact Or.inr (Or.inr ⟨str, p, rfl, hparse, hp, hmem,
        invocationPreamble_live _ str p hparse (by omega) (probeOf_running hmem)⟩)
    · exact Or.inr (Or.inl
        (invocationPreamble_orphan _ str p hparse (by omega) (probeOf_not_running hmem)))

/-- A start invocation whose preamble produced the STOPPED state leaves
no orphan: a failed spawn writes nothing, a successful spawn records the
pid of the server it just made live. -/
theorem start_from_stopped (T : Nat) (w : World) (spawn : Option Int) (k : Nat)
    (hwf : (Cmd.start spawn).wf = true)
    (hpre : invocationPreamble (probeOf w.live) w.file =
      .ok { fileContent := none, existingPid := none, warnings := k }) :
    (execCmd T w (.start spawn)).noOrphan := by
  cases spawn with
  | none =>
    have hw2 : execCmd T w (.start none) = { file := none, live := w.live } := by
      simp only [execCmd, run_command_start, hpre, spawnOf, handle_start, start_fork]
    rw [hw2]
    intro s hs
    exact absurd hs (by simp)
  | some q =>
    have hq : 0 < q := by simpa [Cmd.wf] using hwf
    have hw2 : execCmd T w (.start (some q)) =
        { file := some (save_pid q), live := q :: w.live } := by
      simp only [execCmd, run_command_start, hpre, spawnOf, handle_start, start_fork]
    rw [hw2]
    intro s hs
    obtain rfl : save_pid q = s := by injection hs
    exact ⟨q, pyInt_save_pid q hq, hq, List.mem_cons_self q w.live⟩

/-- A stop invocation whose preamble produced the STOPPED state fails on
the not-running path and leaves the world unchanged and orphan-free. -/
theorem stop_from_stopped (T : Nat) (w : World) (d k : Nat)
    (hpre : invocationPreamble (probeOf w.live) w.file =
      .ok { fileContent := none, existingPid := none, warnings := k }) :
    (execCmd T w (.stop d)).noOrphan := by
  have hw2 : execCmd T w (.stop d) = { file := none, live := w.live } := by
    simp only [execCmd, run_command_stop, hpre, handle_stop]
  rw [hw2]
  intro s hs
  exact absurd hs (by simp)

/-- Every completed command invocation (start or stop, any oracle data)
run on a parseable world ends without an orphaned PID file: the file
exists afterwards only if its pid is live. -/
theorem execCmd_noOrphan (T : Nat) (w : World) (c : Cmd)
    (hw : w.parseable) (hwf : c.wf = true) (hnc : c.isCrash = false) :
    (execCmd T w c).noOrphan := by
  cases c with
  | crash q => simp [Cmd.isCrash] at hnc
  | start spawn =>
    rcases preamble_cases w hw with hpre | hpre | ⟨str, p, hfile, hparse, hp, hmem, hpre⟩
    · exact start_from_stopped T w spawn 0 hwf hpre
    · exact start_from_stopped T w spawn 1 hwf hpre
    · have hp0 : ¬ p = 0 := by omega
      have hw2 : execCmd T w (.start spawn) = { file := some str, live := w.live } := by
        simp only [execCmd, run_command_start, hpre, handle_start, hp0, if_false]
      rw [hw2]
      intro s hs
      obtain rfl : str = s := by injection hs
      exact ⟨p, hparse, hp, hmem⟩
  | stop d =>
    rcases preamble_cases w hw with hpre | hpre | ⟨str, p, hfile, hparse, hp, hmem, hpre⟩
    · exact stop_from_stopped T w d 0 hpre
    · exact stop_from_stopped T w d 1 hpre
    · have hstop := handle_stop_running (fun t => decide (t < d)) T (d + 1) d
        { fileContent := some str, existingPid := some p, warnings := 0 } p rfl
        (by omega) (fun t ht => decide_eq_true ht) (by simp) (by omega)
      have hw2 : execCmd T w (.stop d) = { file := none, live := w.live.erase p } := by
        simp only [execCmd, run_command_stop, hpre, hstop, cleanup_pid_file]
      rw [hw2]
      intro s hs
      exact absurd hs (by simp)

/-- A world without an orphan in particular has a parseable file. -/
theorem noOrphan_parseable {w : World} (h : w.noOrphan) : w.parseable := by
  intro s hs
  obtain ⟨p, h1, h2, _⟩ := h s hs
  exact ⟨p, h1, h2⟩

/-- Parseability of the PID file survives every step, crashes included
(a crash does not touch the file). -/
theorem execCmd_parseable (T : Nat) (w : World) (c : Cmd)
    (hw : w.parseable) (hwf : c.wf = true) :
    (execCmd T w c).parseable := by
  cases hc : c.isCrash with
  | false => exact noOrphan_parseable (execCmd_noOrphan T w c hw hwf hc)
  | true =>
    cases c with
    | crash q =>
      intro s hs
      exact hw s hs
    | start spawn => simp [Cmd.isCrash] at hc
    | stop d => simp [Cmd.isCrash] at hc

theorem execSeq_parseable (T : Nat) (cmds : List Cmd) :
    ∀ w : World, w.parseable → (∀ c ∈ cmds, c.wf = true) →
    (execSeq T w cmds).parseable := by
  induction cmds with
  | nil =>
    intro w hw _
    exact hw
  | cons c rest ih =>
    intro w hw hwf
    exact ih (execCmd T w c)
      (execCmd_parseable T w c hw (hwf c (List.mem_cons_self c rest)))
      (fun c2 hc2 => hwf c2 (List.mem_cons_of_mem c hc2))

/-- C3: for every sequence of completed start and stop invocations,
with arbitrary crashes of the server in between, the world after the
last completed command is never STOPPED-with-file: whenever the PID
file exists its recorded pid is a live process (state RUNNING).  The
transient ORPHANED worlds arise only from a crash between invocations
and are healed by the next invocation, which this theorem covers by
letting the command run from any reachable world. -/
theorem pid_file_iff_running (T : Nat) (cmds : List Cmd) (c : Cmd)
    (hwf : ∀ c2 ∈ cmds, c2.wf = true) (hc : c.wf = true) (hnc : c.isCrash = false) :
    (execCmd T (execSeq T { file := none, live := [] } cmds) c).noOrphan :=
  execCmd_noOrphan T _ c
    (execSeq_parseable T cmds { file := none, live := [] }
      (fun s hs => by simp at hs) hwf)
    hc hnc

/-- C3 witness: start pid 5, let it crash, then a new start: the world
after the last command has no orphaned PID file. -/
theorem pid_file_iff_running_witness :
    (execCmd 9 (execSeq 9 { file := none, live := [] }
        [Cmd.start (some 5), Cmd.crash 5]) (Cmd.start (some 7))).noOrphan :=
  pid_file_iff_running 9 [Cmd.start (some 5), Cmd.crash 5] (Cmd.start (some 7))
    (by decide) (by decide) (by decide)

end A3sdt
